import Mathlib

/-!
Shallow embedding of the email-reveal verification flow of the
powerium.io blog repository: the server-side Reveal Endpoint
(`revealEmail`) and the browser-side Challenge Widget
(`parseCFTurnstileResult` and its token callback).

JavaScript values that can be `undefined` are modelled with `Option`;
template-string interpolation of `undefined` renders as the string
"undefined", and interpolation of an array joins its elements with
commas, exactly as in JavaScript.
-/

/-- Server-side configuration: the environment variables
`CF_TURNSTILE_SECRET_KEY` and `CONTACT_EMAIL`, loaded at process start. -/
structure Config where
  secret : String
  contactEmail : String
deriving Repr, DecidableEq

/-- The verification outcome parsed from the provider response:
`\x7b success: bool, action?: string, "error-codes"?: [string] \x7d`. -/
structure VerificationOutcome where
  success : Bool
  action : Option String
  errorCodes : Option (List String)
deriving Repr, DecidableEq

/-- The JSON body the endpoint sends: either
`\x7b success: true, email \x7d` or `\x7b success: false, error \x7d`.
A field the branch does not set is `none` (absent from the object). -/
structure RevealBody where
  success : Bool
  email : Option String
  error : Option String
deriving Repr, DecidableEq

/-- An HTTP reply of the endpoint: `res.status(code).send(body)`. -/
structure HttpReply where
  status : Nat
  body : RevealBody
deriving Repr, DecidableEq

/-- The observable behaviour of one handler run: the HTTP reply sent
and the `console.error` lines emitted, in order. -/
structure HandlerResult where
  reply : HttpReply
  logs : List String
deriving Repr, DecidableEq

/-- JavaScript template interpolation of a possibly-undefined string. -/
def jsShow (o : Option String) : String :=
  match o with
  | none => "undefined"
  | some s => s

/-- JavaScript template interpolation of a possibly-undefined array of
strings: elements joined with commas. -/
def jsShowList (o : Option (List String)) : String :=
  match o with
  | none => "undefined"
  | some l => String.intercalate "," l

/-- The fixed action label scoping the challenge: `'email-reveal'`. -/
def expectedAction : String := "email-reveal"

/-- The decision logic of the Reveal Endpoint handler `revealEmail`,
acting on the parsed provider outcome. Mirrors the source branch for
branch, including the `console.error` placement:

* `outcome.success && outcome.action === expectedAction` sends
  200 with the email — and logs the "succeeds but action doesn\x27t
  match" diagnostic on this very branch;
* else `outcome.action !== expectedAction` sends the 403
  action-mismatch error with no log;
* else sends 500 Internal server error and logs the provider error
  codes. -/
def revealEmail (cfg : Config) (outcome : VerificationOutcome) : HandlerResult :=
  if outcome.success = true ∧ outcome.action = some expectedAction then
    { reply := { status := 200,
                 body := { success := true, email := some cfg.contactEmail, error := none } },
      logs := ["Reveal email failed: CF Turnstile succeeds but action doesn\x27t match expected action"] }
  else if outcome.action ≠ some expectedAction then
    { reply := { status := 403,
                 body := { success := false, email := none,
                           error := some "Actual action does not match expected action" } },
      logs := [] }
  else
    { reply := { status := 500,
                 body := { success := false, email := none,
                           error := some "Internal server error" } },
      logs := ["Reveal email failed: CF Turnstile failed: " ++ jsShowList outcome.errorCodes] }

/-- The handler run including the outbound call to the provider and the
parse of its body. `providerResult` is `Except.error` when `fetch`
rejects or `result.json()` throws. The source wraps neither in any
`try`/`catch`, so such an exception propagates out of the handler and
no reply is sent. -/
def revealEmailIO (cfg : Config) (providerResult : Except String VerificationOutcome) :
    Except String HandlerResult :=
  match providerResult with
  | .error e => .error e
  | .ok outcome => .ok (revealEmail cfg outcome)

/-- A concrete configuration used for concrete evaluations. -/
def cfgEx : Config := { secret := "s3cr3t", contactEmail := "contact@example.com" }

/-!
Widget side (`src/assets/js/turnstile/client.js`).
-/

/-- The JSON object the widget obtains from `response.json()`. Any of
the fields may be absent (`none`): the endpoint sends only
`success`+`email` or `success`+`error`, but `parseCFTurnstileResult`
must cope with arbitrary shapes, in particular a missing `success`. -/
structure ResponseJson where
  success : Option Bool
  email : Option String
  error : Option String
deriving Repr, DecidableEq

/-- The widget\x27s view of the endpoint\x27s HTTP response:
status, statusText, and the result of `response.json()` — `Except.error`
when the body is not valid JSON and `json()` throws. -/
structure HttpResponse where
  status : Nat
  statusText : String
  json : Except Unit ResponseJson
deriving Repr

/-- The structured result object `parseCFTurnstileResult` returns:
`\x7b success: true, email \x7d` or `\x7b success: false, error \x7d`. -/
structure ParseResult where
  success : Bool
  email : Option String
  error : Option String
deriving Repr, DecidableEq

/-- JavaScript truthiness of the possibly-absent `success` field:
only the boolean `true` is truthy; `false` or `undefined` is falsy. -/
def jsTruthy (b : Option Bool) : Bool :=
  match b with
  | some true => true
  | _ => false

/-- The widget\x27s defensive parse of the endpoint response. Mirrors
the source: a throwing `response.json()` is caught and turned into a
transport-failure result carrying the HTTP status and statusText;
otherwise the branch is chosen by the truthiness of
`responseJson.success`. -/
def parseCFTurnstileResult (response : HttpResponse) : ParseResult :=
  match response.json with
  | .error _ =>
    { success := false, email := none,
      error := some ("Failed to communicate with Turnstile verification backend: "
                       ++ toString response.status ++ " " ++ response.statusText ++ ".") }
  | .ok responseJson =>
    if jsTruthy responseJson.success = true then
      { success := true, email := responseJson.email, error := none }
    else
      { success := false, email := none,
        error := some ("Failed to retrieve email address: " ++ jsShow responseJson.error ++ ".") }

/-- The page state the widget flow can touch: the contact anchor\x27s
`href`, the turnstile container\x27s `style.display`, and all other
page elements (by id), which the flow must leave alone. -/
structure DomState where
  emailHref : String
  turnstileDisplay : String
  others : List (String × String)
deriving Repr, DecidableEq

/-- The DOM effect of the anonymous token callback registered by
`onloadTurnstileCallback`, applied to the parsed result: on success set
the contact anchor to a `mailto:` link, on failure to a
`javascript:alert(...)` URI carrying the error message; in both cases
hide the turnstile container afterwards. -/
def tokenCallback (result : ParseResult) (dom : DomState) : DomState :=
  let dom1 :=
    if result.success = true then
      { dom with emailHref := "mailto:" ++ jsShow result.email }
    else
      { dom with emailHref :=
          "javascript:alert(\x27Failed to retrieve email address: "
            ++ jsShow result.error ++ "\x27);" }
  { dom1 with turnstileDisplay := "none" }

/-- Two strings whose first characters differ stay different after
appending arbitrary suffixes. -/
theorem append_ne_append_of_head_ne (a b s r : String) (c1 c2 : Char)
    (ha : a.data.head? = some c1) (hb : b.data.head? = some c2) (hne : c1 ≠ c2) :
    a ++ s ≠ b ++ r := by
  intro h
  have h2 : (a ++ s).data = (b ++ r).data := congrArg String.data h
  rw [String.data_append, String.data_append] at h2
  cases hd1 : a.data with
  | nil => rw [hd1] at ha; simp at ha
  | cons x xs =>
    cases hd2 : b.data with
    | nil => rw [hd2] at hb; simp at hb
    | cons y ys =>
      rw [hd1] at ha
      rw [hd2] at hb
      rw [hd1, hd2] at h2
      simp only [List.cons_append, List.cons.injEq] at h2
      simp only [List.head?_cons, Option.some.injEq] at ha hb
      exact hne (by rw [← ha, ← hb]; exact h2.1)

/-- A provider outcome that verifies with the expected action. -/
def oOk : VerificationOutcome :=
  { success := true, action := some "email-reveal", errorCodes := none }

/-- A provider outcome that verifies but for a different action. -/
def oMismatch : VerificationOutcome :=
  { success := true, action := some "login", errorCodes := none }

/-- A failed provider outcome whose action nevertheless matches. -/
def oFail : VerificationOutcome :=
  { success := false, action := some "email-reveal", errorCodes := some ["invalid-input-response"] }

/-- A failed provider outcome with a non-matching action. -/
def oFailMismatch : VerificationOutcome :=
  { success := false, action := some "login", errorCodes := some ["invalid-input-response"] }

/-!
Claims about the Reveal Endpoint.
-/

/-- C1: the response carries the configured email exactly when the
outcome succeeded with the expected action, and carries nothing else in
its email field; the log lines and the error field are computed without
any access to the configured email, so the email value can appear in no
log line and in no other response path. -/
theorem C1_email_confinement (cfg : Config) (o : VerificationOutcome) :
    (revealEmail cfg o).reply.body.email
      = (if o.success = true ∧ o.action = some expectedAction then some cfg.contactEmail else none)
    ∧ (∀ e : String,
        (revealEmail { cfg with contactEmail := e } o).logs = (revealEmail cfg o).logs
        ∧ (revealEmail { cfg with contactEmail := e } o).reply.body.error
            = (revealEmail cfg o).reply.body.error) := by
  by_cases h1 : o.success = true ∧ o.action = some expectedAction
  · simp [revealEmail, h1]
  · by_cases h2 : o.action = some expectedAction
    · have h3 : ¬o.success = true := fun hs => h1 ⟨hs, h2⟩
      simp [revealEmail, h2, h3]
    · simp [revealEmail, h1, h2]

/-- C2: a successful outcome with the expected action yields status 200
and a body with success true, the configured email, and no error
field. -/
theorem C2_success_discloses_email (cfg : Config) (o : VerificationOutcome)
    (h1 : o.success = true) (h2 : o.action = some expectedAction) :
    (revealEmail cfg o).reply.status = 200
    ∧ (revealEmail cfg o).reply.body.success = true
    ∧ (revealEmail cfg o).reply.body.email = some cfg.contactEmail
    ∧ (revealEmail cfg o).reply.body.error = none := by
  simp [revealEmail, h1, h2]

/-- Witness for C2 at the concrete verified outcome. -/
theorem C2_success_discloses_email_witness :
    (revealEmail cfgEx oOk).reply.status = 200
    ∧ (revealEmail cfgEx oOk).reply.body.success = true
    ∧ (revealEmail cfgEx oOk).reply.body.email = some cfgEx.contactEmail
    ∧ (revealEmail cfgEx oOk).reply.body.error = none :=
  C2_success_discloses_email cfgEx oOk rfl rfl

/-- C3: a successful outcome with a non-matching action yields status
403, success false, the action-mismatch error message, and no email. -/
theorem C3_mismatch_rejected (cfg : Config) (o : VerificationOutcome)
    (h1 : o.success = true) (h2 : o.action ≠ some expectedAction) :
    (revealEmail cfg o).reply.status = 403
    ∧ (revealEmail cfg o).reply.body.success = false
    ∧ (revealEmail cfg o).reply.body.error = some "Actual action does not match expected action"
    ∧ (revealEmail cfg o).reply.body.email = none := by
  simp [revealEmail, h1, h2]

/-- Witness for C3 at the concrete mismatched outcome. -/
theorem C3_mismatch_rejected_witness :
    (revealEmail cfgEx oMismatch).reply.status = 403
    ∧ (revealEmail cfgEx oMismatch).reply.body.success = false
    ∧ (revealEmail cfgEx oMismatch).reply.body.error
        = some "Actual action does not match expected action"
    ∧ (revealEmail cfgEx oMismatch).reply.body.email = none :=
  C3_mismatch_rejected cfgEx oMismatch rfl (by decide)

/-- C4 counterexample: on a failed outcome whose action equals the
expected action the endpoint replies 500 with the generic
"Internal server error" — not a 4xx client error and not the
action-mismatch message the claim requires for every failed outcome. -/
theorem C4_counterexample :
    (revealEmail cfgEx oFail).reply.status = 500
    ∧ (revealEmail cfgEx oFail).reply.body.error = some "Internal server error"
    ∧ ¬(400 ≤ (revealEmail cfgEx oFail).reply.status
        ∧ (revealEmail cfgEx oFail).reply.status < 500)
    ∧ ¬(revealEmail cfgEx oFail).reply.body.error
          = some "Actual action does not match expected action" := by
  decide

/-- C4 amended: a failed outcome is answered with the 403
action-mismatch error when its action differs from the expected action,
and with the 500 generic "Internal server error" when its action equals
the expected action; in both cases success is false and no email is
included. -/
theorem C4_failure_responses (cfg : Config) (o : VerificationOutcome)
    (h1 : o.success = false) :
    (o.action ≠ some expectedAction →
      (revealEmail cfg o).reply.status = 403
      ∧ (revealEmail cfg o).reply.body.error
          = some "Actual action does not match expected action")
    ∧ (o.action = some expectedAction →
      (revealEmail cfg o).reply.status = 500
      ∧ (revealEmail cfg o).reply.body.error = some "Internal server error")
    ∧ (revealEmail cfg o).reply.body.success = false
    ∧ (revealEmail cfg o).reply.body.email = none := by
  by_cases h2 : o.action = some expectedAction
  · simp [revealEmail, h1, h2]
  · simp [revealEmail, h1, h2]

/-- Witness for the amended C4 at both failed outcomes. -/
theorem C4_failure_responses_witness :
    ((revealEmail cfgEx oFailMismatch).reply.status = 403
     ∧ (revealEmail cfgEx oFailMismatch).reply.body.error
         = some "Actual action does not match expected action")
    ∧ ((revealEmail cfgEx oFail).reply.status = 500
       ∧ (revealEmail cfgEx oFail).reply.body.error = some "Internal server error") :=
  ⟨(C4_failure_responses cfgEx oFailMismatch rfl).1 (by decide),
   (C4_failure_responses cfgEx oFail rfl).2.1 rfl⟩

/-- C5: the handler wraps the provider call and the body parse in no
`try`/`catch`, so a rejected `fetch` or a throwing `result.json()`
propagates out of `revealEmailIO` unchanged: no reply (and in
particular no email) is ever produced on that path, but the claimed
success-false generic-error response is not produced either — the
handler simply rethrows. -/
theorem C5_exception_propagates (cfg : Config) (e : String) :
    revealEmailIO cfg (Except.error e) = Except.error e :=
  rfl

/-- C6: the "succeeds but action doesn\x27t match" diagnostic is logged
on the successful-disclosure branch itself (where the 200 reply with
the email is sent), while the succeeded-but-mismatched branch and the
failed-with-mismatched-action branch log nothing; the provider error
codes are logged only on the failed-with-matching-action branch. -/
theorem C6_log_misplaced :
    (revealEmail cfgEx oOk).logs
      = ["Reveal email failed: CF Turnstile succeeds but action doesn\x27t match expected action"]
    ∧ (revealEmail cfgEx oOk).reply.status = 200
    ∧ (revealEmail cfgEx oOk).reply.body.email = some "contact@example.com"
    ∧ (revealEmail cfgEx oMismatch).logs = []
    ∧ (revealEmail cfgEx oFailMismatch).logs = []
    ∧ (revealEmail cfgEx oFail).logs
      = ["Reveal email failed: CF Turnstile failed: invalid-input-response"] := by
  decide

/-- C10: a failed outcome whose action equals the expected action gets
the 500 generic "Internal server error" reply, never the 403
action-mismatch reply; whenever the action equals the expected action
the status is 200 or 500, so the action-mismatch branch fires only
when the action actually differs. -/
theorem C10_matching_action_failure_is_500 (cfg : Config) (o : VerificationOutcome) :
    (o.success = false → o.action = some expectedAction →
      (revealEmail cfg o).reply.status = 500
      ∧ (revealEmail cfg o).reply.body.success = false
      ∧ (revealEmail cfg o).reply.body.error = some "Internal server error"
      ∧ (revealEmail cfg o).reply.body.email = none)
    ∧ (o.action = some expectedAction →
      (revealEmail cfg o).reply.status = 200 ∨ (revealEmail cfg o).reply.status = 500) := by
  constructor
  · intro h1 h2
    simp [revealEmail, h1, h2]
  · intro h2
    by_cases h1 : o.success = true
    · left
      simp [revealEmail, h1, h2]
    · right
      simp [revealEmail, h1, h2]

/-- Witness for C10 at the failed outcome with matching action. -/
theorem C10_matching_action_failure_is_500_witness :
    ((revealEmail cfgEx oFail).reply.status = 500
     ∧ (revealEmail cfgEx oFail).reply.body.success = false
     ∧ (revealEmail cfgEx oFail).reply.body.error = some "Internal server error"
     ∧ (revealEmail cfgEx oFail).reply.body.email = none)
    ∧ ((revealEmail cfgEx oFail).reply.status = 200
       ∨ (revealEmail cfgEx oFail).reply.status = 500) :=
  ⟨(C10_matching_action_failure_is_500 cfgEx oFail).1 rfl rfl,
   (C10_matching_action_failure_is_500 cfgEx oFail).2 rfl⟩

/-!
Claims about the Challenge Widget.
-/

/-- A response body whose JSON carries no `success` field. -/
def rjNoSuccess : ResponseJson :=
  { success := none, email := none, error := some "backend exploded" }

/-- A parse result indicating success, as after a disclosure. -/
def prOk : ParseResult :=
  { success := true, email := some "contact@example.com", error := none }

/-- A parse result indicating failure. -/
def prErr : ParseResult :=
  { success := false, email := none,
    error := some "Failed to retrieve email address: Actual action does not match expected action." }

/-- A concrete page state before the widget flow runs. -/
def domEx : DomState :=
  { emailHref := "#", turnstileDisplay := "block", others := [("nav", "visible")] }

/-- C7: a response whose body is not valid JSON is answered by a
structured failure result whose message carries the HTTP status (and
statusText), and a JSON body lacking the `success` field also yields a
structured failure result — `parseCFTurnstileResult` is a total
function, so neither case escapes as an exception. -/
theorem C7_defensive_parse (status : Nat) (statusText : String) (b : ResponseJson) :
    (parseCFTurnstileResult { status := status, statusText := statusText, json := Except.error () }
      = { success := false, email := none,
          error := some ("Failed to communicate with Turnstile verification backend: "
                           ++ toString status ++ " " ++ statusText ++ ".") })
    ∧ (b.success = none →
        (parseCFTurnstileResult { status := status, statusText := statusText, json := Except.ok b }).success
          = false
        ∧ (parseCFTurnstileResult { status := status, statusText := statusText, json := Except.ok b }).error
          = some ("Failed to retrieve email address: " ++ jsShow b.error ++ ".")) := by
  constructor
  · rfl
  · intro hb
    simp [parseCFTurnstileResult, jsTruthy, hb]

/-- Witness for C7: a malformed 502 body and a 200 body lacking
`success`. -/
theorem C7_defensive_parse_witness :
    (parseCFTurnstileResult { status := 502, statusText := "Bad Gateway", json := Except.error () }
      = { success := false, email := none,
          error := some ("Failed to communicate with Turnstile verification backend: "
                           ++ toString 502 ++ " " ++ "Bad Gateway" ++ ".") })
    ∧ ((parseCFTurnstileResult { status := 200, statusText := "OK", json := Except.ok rjNoSuccess }).success
        = false
       ∧ (parseCFTurnstileResult { status := 200, statusText := "OK", json := Except.ok rjNoSuccess }).error
        = some ("Failed to retrieve email address: " ++ jsShow rjNoSuccess.error ++ ".")) :=
  ⟨(C7_defensive_parse 502 "Bad Gateway" rjNoSuccess).1,
   (C7_defensive_parse 200 "OK" rjNoSuccess).2 rfl⟩

/-- C8: on a success result the token callback points the contact
anchor at `mailto:` followed by the returned email; on a failure result
it points it at a `javascript:alert(...)` URI carrying the error
message, which is not a `mailto:` link. -/
theorem C8_contact_anchor (result : ParseResult) (dom : DomState) :
    (result.success = true →
      (tokenCallback result dom).emailHref = "mailto:" ++ jsShow result.email)
    ∧ (result.success = false →
      (tokenCallback result dom).emailHref
        = "javascript:alert(\x27Failed to retrieve email address: "
            ++ jsShow result.error ++ "\x27);"
      ∧ ∀ rest : String, (tokenCallback result dom).emailHref ≠ "mailto:" ++ rest) := by
  constructor
  · intro hs
    simp [tokenCallback, hs]
  · intro hs
    constructor
    · simp [tokenCallback, hs]
    · intro rest
      have hhref : (tokenCallback result dom).emailHref
          = "javascript:alert(\x27Failed to retrieve email address: "
              ++ jsShow result.error ++ "\x27);" := by
        simp [tokenCallback, hs]
      rw [hhref, String.append_assoc]
      exact append_ne_append_of_head_ne _ _ _ _ 'j' 'm' rfl rfl (by decide)

/-- Witness for C8 at a concrete success result and a concrete failure
result. -/
theorem C8_contact_anchor_witness :
    ((tokenCallback prOk domEx).emailHref = "mailto:" ++ jsShow prOk.email)
    ∧ ((tokenCallback prErr domEx).emailHref
        = "javascript:alert(\x27Failed to retrieve email address: "
            ++ jsShow prErr.error ++ "\x27);"
       ∧ ∀ rest : String, (tokenCallback prErr domEx).emailHref ≠ "mailto:" ++ rest) :=
  ⟨(C8_contact_anchor prOk domEx).1 rfl, (C8_contact_anchor prErr domEx).2 rfl⟩

/-- C9: for every parsed result — success or failure — the token
callback sets the turnstile container\x27s display to "none", and every
page element other than the contact anchor and the container is left
exactly as it was. -/
theorem C9_hides_container (result : ParseResult) (dom : DomState) :
    (tokenCallback result dom).turnstileDisplay = "none"
    ∧ (tokenCallback result dom).others = dom.others := by
  cases hs : result.success <;> simp [tokenCallback, hs]
